import Mathlib

/-! SerialPort.c (android/jni) : a shallow embedding

The JNI bridge `SerialPort.c` maps an integer bitrate to a termios speed
constant, opens a device node, puts it in raw mode at that speed, adjusts
`VMIN`/`VTIME`, and closes the descriptor.

The operating system is a parameter: every system call is a function on an
abstract world state, and each operation returns, next to its result, the
trace of the calls it made (with their arguments and return values).
The numeric values of the header constants (`<termios.h>`, `<fcntl.h>`) are
those of the Linux generic ABI used by the Android NDK.
-/

namespace SerialPort

/-! ## Header constants -/

/-- Value of `O_RDWR` in `<fcntl.h>` (octal 02). -/
def O_RDWR : Nat := 2
/-- Value of `O_NOCTTY` in `<fcntl.h>` (octal 0400). -/
def O_NOCTTY : Nat := 256
/-- Value of `O_NONBLOCK` in `<fcntl.h>` (octal 04000). -/
def O_NONBLOCK : Nat := 2048
/-- Value of `TCSANOW` in `<termios.h>`. -/
def TCSANOW : Nat := 0
/-- Size of the control-character array `c_cc` of `struct termios`. -/
abbrev NCCS : Nat := 19
/-- Index of the `VTIME` entry of `c_cc`. -/
def VTIME : Fin NCCS := ⟨5, by decide⟩
/-- Index of the `VMIN` entry of `c_cc`. -/
def VMIN : Fin NCCS := ⟨6, by decide⟩

/-- Conversion of a C `int` to `speed_t` (`unsigned int`, 32 bits). -/
def to_speed_t (i : Int) : Nat := (i % 2 ^ 32).toNat
/-- Conversion of a C `int` to `cc_t` (`unsigned char`, 8 bits). -/
def to_cc_t (i : Int) : Nat := (i % 2 ^ 8).toNat

/-! Speed constants of `<termios.h>` (octal 0 to 017, then 010001 to 010017). -/

def B0 : Nat := 0
def B50 : Nat := 1
def B75 : Nat := 2
def B110 : Nat := 3
def B134 : Nat := 4
def B150 : Nat := 5
def B200 : Nat := 6
def B300 : Nat := 7
def B600 : Nat := 8
def B1200 : Nat := 9
def B1800 : Nat := 10
def B2400 : Nat := 11
def B4800 : Nat := 12
def B9600 : Nat := 13
def B19200 : Nat := 14
def B38400 : Nat := 15
def B57600 : Nat := 4097
def B115200 : Nat := 4098
def B230400 : Nat := 4099
def B460800 : Nat := 4100
def B500000 : Nat := 4101
def B576000 : Nat := 4102
def B921600 : Nat := 4103
def B1000000 : Nat := 4104
def B1152000 : Nat := 4105
def B1500000 : Nat := 4106
def B2000000 : Nat := 4107
def B2500000 : Nat := 4108
def B3000000 : Nat := 4109
def B3500000 : Nat := 4110
def B4000000 : Nat := 4111

/-! ## Data -/

/-- The C `struct termios` (kernel layout: four flag words, the line
discipline, and `NCCS` control characters). -/
structure termios where
  c_iflag : Nat
  c_oflag : Nat
  c_cflag : Nat
  c_lflag : Nat
  c_line : Nat
  c_cc : Fin NCCS → Nat
deriving DecidableEq

/-- Android log priorities used by the `LOGI`, `LOGD`, `LOGE` shorthands. -/
inductive LogLevel where
  | info
  | debug
  | error
deriving DecidableEq, Repr

/-- An argument handed to a `printf`-style log call. -/
inductive LogArg where
  | str (s : String)
  | int (i : Int)
deriving DecidableEq

/-- One observable call made by the bridge, with its arguments and, for a
system call, the value it returned. -/
inductive Event where
  | log (level : LogLevel) (fmt : String) (args : List LogArg)
  | sys_open (path : String) (flags : Nat) (ret : Int)
  | tcgetattr (fd : Int) (ret : Int) (cfg : termios)
  | tcsetattr (fd : Int) (optional_actions : Nat) (cfg : termios) (ret : Int)
  | close (fd : Int) (ret : Int)
deriving DecidableEq

/-- Whether an event is one of the OS calls `open`, `tcgetattr`, `tcsetattr`,
`close` (as opposed to a log line). -/
def Event.isOSCall : Event → Bool
  | .log _ _ _ => false
  | .sys_open _ _ _ => true
  | .tcgetattr _ _ _ => true
  | .tcsetattr _ _ _ _ => true
  | .close _ _ => true

/-- The OS calls of a trace, in order. -/
def osCalls (tr : List Event) : List Event := tr.filter Event.isOSCall

/-- The operating system and C library as seen by the bridge. `σ` is the state
of the world. `sys_open` is the `open(2)` call, which by POSIX returns either
`-1` or a non-negative descriptor. `tcgetattr` returns its status together with
the contents of the caller's `struct termios` after the call. -/
structure OS (σ : Type) where
  sys_open : String → Nat → σ → Int × σ
  sys_open_ret : ∀ path flags s, (sys_open path flags s).1 = -1 ∨ 0 ≤ (sys_open path flags s).1
  tcgetattr : Int → σ → Int × termios × σ
  tcsetattr : Int → Nat → termios → σ → Int × σ
  close : Int → σ → Int × σ
  cfmakeraw : termios → termios
  cfsetispeed : termios → Nat → termios
  cfsetospeed : termios → Nat → termios
  errno : σ → Int
  strerror : Int → String

/-- The part of the JNI environment the bridge depends on: whether `FindClass`
finds a class of the given name. -/
structure JNIEnv where
  FindClass : String → Bool

/-- A `java.io.FileDescriptor` object: its `descriptor` field. -/
structure FileDescriptor where
  descriptor : Int
deriving DecidableEq, Repr

/-- The Java `SerialPort` object: its `fileDescriptor` field. -/
structure SerialPortObject where
  fileDescriptor : FileDescriptor
deriving DecidableEq, Repr

/-- A pending Java exception: class name and message. -/
structure JavaException where
  cls : String
  msg : String
deriving DecidableEq, Repr

/-- The `IO_EXCEPTION` constant. -/
def IO_EXCEPTION : String := "java/io/IOException"

/-! ## Functions of SerialPort.c -/

/-- The `getBitrate` switch; the default case returns `-1` as a `speed_t`. -/
def getBitrate (bitrate : Int) : Nat :=
  match bitrate with
  | 0 => B0
  | 50 => B50
  | 75 => B75
  | 110 => B110
  | 134 => B134
  | 150 => B150
  | 200 => B200
  | 300 => B300
  | 600 => B600
  | 1200 => B1200
  | 1800 => B1800
  | 2400 => B2400
  | 4800 => B4800
  | 9600 => B9600
  | 19200 => B19200
  | 38400 => B38400
  | 57600 => B57600
  | 115200 => B115200
  | 230400 => B230400
  | 460800 => B460800
  | 500000 => B500000
  | 576000 => B576000
  | 921600 => B921600
  | 1000000 => B1000000
  | 1152000 => B1152000
  | 1500000 => B1500000
  | 2000000 => B2000000
  | 2500000 => B2500000
  | 3000000 => B3000000
  | 3500000 => B3500000
  | 4000000 => B4000000
  | _ => to_speed_t (-1)

/-- The function `throw_java_exception`. `buf` is the content of the local
array `char buf[60]`, which the function never writes before handing it to
`ThrowNew`. The result is the exception left pending, if any. -/
def throw_java_exception (env : JNIEnv) (exception msg buf : String) :
    Option JavaException × List Event :=
  if env.FindClass exception = false then
    (none, [])
  else
    (some ⟨exception, buf⟩, [Event.log .debug "%s in %s" [.str msg]])

/-- The function `get_file_descriptor`: reads `thiz.fileDescriptor.descriptor`. -/
def get_file_descriptor (thiz : SerialPortObject) : Int :=
  thiz.fileDescriptor.descriptor

/-- The native method `open`: result (`none` is `NULL`), trace, final state. -/
def Java_io_bali_serialport_api_SerialPort_open {σ : Type} (os : OS σ)
    (path : String) (bitrate : Int) (s : σ) : Option FileDescriptor × List Event × σ :=
  let speed := getBitrate bitrate
  if speed = to_speed_t (-1) then
    (none, [Event.log .error "Invalid bitrate" []], s)
  else
    let flags := O_RDWR ||| O_NONBLOCK
    let r1 := os.sys_open path flags s
    let fd := r1.1
    let t1 := [Event.log .debug "Opening serial port %s with flags 0x%x" [.str path, .int flags],
               Event.sys_open path flags fd,
               Event.log .debug "open() fd = %d" [.int fd]]
    if fd = -1 then
      (none, t1 ++ [Event.log .error "Cannot open port" []], r1.2)
    else
      let r2 := os.tcgetattr fd r1.2
      let t2 := t1 ++ [Event.log .debug "Configuring serial port" [],
                       Event.tcgetattr fd r2.1 r2.2.1]
      if r2.1 ≠ 0 then
        let r3 := os.close fd r2.2.2
        (none, t2 ++ [Event.log .error "tcgetattr() failed" [], Event.close fd r3.1], r3.2)
      else
        let cfg := os.cfmakeraw r2.2.1
        let cfg := os.cfsetispeed cfg speed
        let cfg := os.cfsetospeed cfg speed
        let r3 := os.tcsetattr fd TCSANOW cfg r2.2.2
        let t3 := t2 ++ [Event.tcsetattr fd TCSANOW cfg r3.1]
        if r3.1 ≠ 0 then
          let r4 := os.close fd r3.2
          (none, t3 ++ [Event.log .error "tcsetattr() failed" [], Event.close fd r4.1], r4.2)
        else
          (some ⟨fd⟩, t3, r3.2)

/-- The native method `setTimeoutThreshold`: pending exception, trace, final
state. `buf` is the uninitialised buffer of `throw_java_exception`. -/
def Java_io_bali_serialport_api_SerialPort_setTimeoutThreshold {σ : Type} (os : OS σ)
    (env : JNIEnv) (thiz : SerialPortObject) (vtime threshold : Int) (buf : String) (s : σ) :
    Option JavaException × List Event × σ :=
  let fd := get_file_descriptor thiz
  let timeout : Int := if vtime < 0 then 0 else if vtime = 0 then 1 else vtime
  let r1 := os.tcgetattr fd s
  let t1 := [Event.tcgetattr fd r1.1 r1.2.1]
  if r1.1 < 0 then
    let e := throw_java_exception env IO_EXCEPTION (os.strerror (os.errno r1.2.2)) buf
    (e.1, t1 ++ e.2, r1.2.2)
  else
    let ttyset := r1.2.1
    let ttyset := { ttyset with c_cc := Function.update ttyset.c_cc VMIN (to_cc_t threshold) }
    let ttyset :=
      { ttyset with c_cc := Function.update ttyset.c_cc VTIME (to_cc_t (Int.tdiv timeout 100)) }
    let r2 := os.tcsetattr fd TCSANOW ttyset r1.2.2
    let t2 := t1 ++ [Event.tcsetattr fd TCSANOW ttyset r2.1]
    if r2.1 < 0 then
      let e := throw_java_exception env IO_EXCEPTION (os.strerror (os.errno r2.2)) buf
      (e.1, t2 ++ e.2, r2.2)
    else
      (none,
       t2 ++ [Event.log .debug "Receive Timeout set to %d" [.int (ttyset.c_cc VTIME)],
              Event.log .debug "Threshold set to %d" [.int (ttyset.c_cc VMIN)]],
       r2.2)

/-- The native method `close`. -/
def Java_io_bali_serialport_api_SerialPort_close {σ : Type} (os : OS σ)
    (thiz : SerialPortObject) (s : σ) : List Event × σ :=
  let descriptor := get_file_descriptor thiz
  let r := os.close descriptor s
  ([Event.log .debug "close(fd = %d)" [.int descriptor], Event.close descriptor r.1], r.2)

/-! ## A simulated device, used to run the bridge on concrete inputs -/

/-- Clears in `x` the bits set in `mask` (the C idiom `x & ~mask`). -/
def clearBits (x mask : Nat) : Nat := x ^^^ (x &&& mask)

/-- Raw mode as the Android C library computes it (`cfmakeraw`): clears
`IGNBRK|BRKINT|PARMRK|ISTRIP|INLCR|IGNCR|ICRNL|IXON` in `c_iflag`, `OPOST` in
`c_oflag`, `ECHO|ECHONL|ICANON|ISIG|IEXTEN` in `c_lflag`, `CSIZE|PARENB` in
`c_cflag`, sets `CS8`, and sets `VMIN = 1`, `VTIME = 0`. -/
def sim_cfmakeraw (t : termios) : termios :=
  { t with
    c_iflag := clearBits t.c_iflag (1 ||| 2 ||| 8 ||| 32 ||| 64 ||| 128 ||| 256 ||| 1024)
    c_oflag := clearBits t.c_oflag 1
    c_lflag := clearBits t.c_lflag (8 ||| 64 ||| 2 ||| 1 ||| 32768)
    c_cflag := clearBits t.c_cflag (48 ||| 256) ||| 48
    c_cc := Function.update (Function.update t.c_cc VMIN 1) VTIME 0 }

/-- Speed setting as the Android C library computes it (`cfsetispeed` and
`cfsetospeed` both store the speed in the `CBAUD` bits of `c_cflag`, and
leave the structure alone when the speed has a bit outside `CBAUD`). -/
def sim_cfsetspeed (t : termios) (speed : Nat) : termios :=
  if clearBits speed 4111 ≠ 0 then t
  else { t with c_cflag := clearBits t.c_cflag 4111 ||| (speed &&& 4111) }

/-- State of the simulated world: the open descriptors, the attributes of the
one serial line, and `errno`. -/
structure SimState where
  open_fds : List Int
  attrs : termios
  errno : Int
deriving DecidableEq

/-- Which calls the simulated device makes fail. -/
structure SimFaults where
  open_fails : Bool
  tcgetattr_fails : Bool
  tcsetattr_fails : Bool

/-- A `struct termios` with every field zero. -/
def zeroTermios : termios := ⟨0, 0, 0, 0, 0, fun _ => 0⟩

/-- Attributes of a line in cooked mode at 38400 baud (typical power-on state). -/
def cookedTermios : termios := ⟨1280, 5, 191, 35387, 0, fun _ => 0⟩

/-- The simulated OS: `open` yields descriptor 3 (or fails with `ENOENT`),
`tcgetattr`/`tcsetattr` read and write the line attributes of an open
descriptor (or fail with `EBADF`/`EIO`), `close` releases the descriptor. -/
def simOS (f : SimFaults) : OS SimState where
  sys_open := fun _ _ s =>
    if f.open_fails then (-1, { s with errno := 2 })
    else (3, { s with open_fds := 3 :: s.open_fds })
  sys_open_ret := by
    intro _ _ s
    cases f.open_fails <;> simp
  tcgetattr := fun fd s =>
    if fd ∉ s.open_fds then (-1, zeroTermios, { s with errno := 9 })
    else if f.tcgetattr_fails then (-1, zeroTermios, { s with errno := 5 })
    else (0, s.attrs, s)
  tcsetattr := fun fd _ t s =>
    if fd ∉ s.open_fds then (-1, { s with errno := 9 })
    else if f.tcsetattr_fails then (-1, { s with errno := 5 })
    else (0, { s with attrs := t })
  close := fun fd s =>
    if fd ∉ s.open_fds then (-1, { s with errno := 9 })
    else (0, { s with open_fds := s.open_fds.erase fd })
  cfmakeraw := sim_cfmakeraw
  cfsetispeed := sim_cfsetspeed
  cfsetospeed := sim_cfsetspeed
  errno := fun s => s.errno
  strerror := fun e =>
    if e = 2 then "No such file or directory"
    else if e = 5 then "Input/output error"
    else if e = 9 then "Bad file descriptor"
    else "Unknown error"

/-- No simulated call fails. -/
def noFaults : SimFaults := ⟨false, false, false⟩

/-- Initial simulated world: nothing open, line in cooked mode. -/
def simInit : SimState := ⟨[], cookedTermios, 0⟩

/-- A JNI environment in which every class is found. -/
def simEnv : JNIEnv := ⟨fun _ => true⟩

/-! ## Tables of the specification -/

/-- The supported bitrates, each with the speed constant of the same name. -/
def supportedSpeeds : List (Int × Nat) :=
  [(0, B0), (50, B50), (75, B75), (110, B110), (134, B134), (150, B150), (200, B200),
   (300, B300), (600, B600), (1200, B1200), (1800, B1800), (2400, B2400), (4800, B4800),
   (9600, B9600), (19200, B19200), (38400, B38400), (57600, B57600), (115200, B115200),
   (230400, B230400), (460800, B460800), (500000, B500000), (576000, B576000),
   (921600, B921600), (1000000, B1000000), (1152000, B1152000), (1500000, B1500000),
   (2000000, B2000000), (2500000, B2500000), (3000000, B3000000), (3500000, B3500000),
   (4000000, B4000000)]

/-- The 31 supported bitrates. -/
def supportedBitrates : List Int :=
  [0, 50, 75, 110, 134, 150, 200, 300, 600, 1200, 1800, 2400, 4800, 9600, 19200, 38400,
   57600, 115200, 230400, 460800, 500000, 576000, 921600, 1000000, 1152000, 1500000,
   2000000, 2500000, 3000000, 3500000, 4000000]

/-- The normalisation of `vtime` that `setTimeoutThreshold` performs first:
negative gives 0, zero gives 1, a positive value is kept. -/
def normalisedTimeout (vtime : Int) : Int :=
  if vtime < 0 then 0 else if vtime = 0 then 1 else vtime

/-- A flag word contains a flag when every bit of the flag is set in it. -/
def containsFlag (word flag : Nat) : Prop := word &&& flag = flag

instance (word flag : Nat) : Decidable (containsFlag word flag) := by
  unfold containsFlag
  infer_instance

/-- The attribute structures handed to `tcsetattr` in a trace, in order. -/
def appliedAttrs : List Event → List termios
  | [] => []
  | .tcsetattr _ _ cfg _ :: tr => cfg :: appliedAttrs tr
  | _ :: tr => appliedAttrs tr

/-! ## Concrete scenarios on the simulated device -/

/-- The device node used in the scenarios. -/
def simPath : String := "/dev/ttyS0"

/-- The simulated world after a successful `open` of `simPath` at 9600 baud:
descriptor 3 is open and the line is in raw mode. -/
def simOpened : SimState :=
  (Java_io_bali_serialport_api_SerialPort_open (simOS noFaults) simPath 9600 simInit).2.2

/-- The Java object holding descriptor 3. -/
def simThiz : SerialPortObject := ⟨⟨3⟩⟩

/-- Only `tcsetattr` fails. -/
def setFails : SimFaults := ⟨false, false, true⟩

/-- Only `tcgetattr` fails. -/
def getFails : SimFaults := ⟨false, true, false⟩

/-- Only `open` fails. -/
def openFails : SimFaults := ⟨true, false, false⟩

/-- Trace of a successful `open` of `simPath` at 9600 baud. -/
def traceOpenOk : List Event :=
  (Java_io_bali_serialport_api_SerialPort_open (simOS noFaults) simPath 9600 simInit).2.1

/-- The simulated world right after the OS `open`: descriptor 3 is open and the
line is still in cooked mode. -/
def simAfterOpen : SimState := ⟨[3], cookedTermios, 0⟩

/-- The raw form of the cooked attributes at speed `B9600`. -/
def simRawAttrs : termios :=
  sim_cfsetspeed (sim_cfsetspeed (sim_cfmakeraw cookedTermios) B9600) B9600

/-- Trace of `setTimeoutThreshold vtime threshold` on the opened device. -/
def traceTimeout (vtime threshold : Int) : List Event :=
  (Java_io_bali_serialport_api_SerialPort_setTimeoutThreshold (simOS noFaults) simEnv simThiz
    vtime threshold "" simOpened).2.1

/-- The attributes applied by `setTimeoutThreshold vtime threshold` on the
opened device (all zero if none were applied). -/
def attrsTimeout (vtime threshold : Int) : termios :=
  (appliedAttrs (traceTimeout vtime threshold)).headD zeroTermios

set_option maxRecDepth 8000

/-! ## Lemmas on `getBitrate` -/

/-- On every row of the table, `getBitrate` returns the constant of the row,
which differs from `(speed_t)-1`; the constant for bitrate 0 is 0. -/
theorem getBitrate_table : ∀ p ∈ supportedSpeeds,
    getBitrate p.1 = p.2 ∧ p.2 ≠ to_speed_t (-1) ∧ (p.1 = 0 → p.2 = 0) := by
  decide

/-- The first column of the table is the list of supported bitrates. -/
theorem supportedSpeeds_fst : supportedSpeeds.map Prod.fst = supportedBitrates := by
  decide

/-- A supported bitrate is not mapped to `(speed_t)-1`. -/
theorem getBitrate_valid_of_mem (b : Int) (h : b ∈ supportedBitrates) :
    getBitrate b ≠ to_speed_t (-1) := by
  revert b
  decide

/-- An unsupported bitrate is mapped to `(speed_t)-1`. -/
theorem getBitrate_invalid_of_not_mem (b : Int) (h : b ∉ supportedBitrates) :
    getBitrate b = to_speed_t (-1) := by
  unfold getBitrate
  split <;> first | rfl | (exfalso; apply h; decide)

/-- No negative integer is a supported bitrate. -/
theorem not_mem_supportedBitrates_of_neg (b : Int) (h : b < 0) : b ∉ supportedBitrates := by
  intro hb
  have h0 : ∀ x ∈ supportedBitrates, (0 : Int) ≤ x := by decide
  exact absurd (h0 b hb) (by omega)

/-- The value stored by a conversion to `cc_t` is the residue modulo 256. -/
theorem to_cc_t_cast (i : Int) : ((to_cc_t i : Nat) : Int) = i % 256 := by
  unfold to_cc_t
  have h : (0 : Int) ≤ i % 2 ^ 8 := Int.emod_nonneg _ (by norm_num)
  rw [Int.toNat_of_nonneg h]
  norm_num

/-! ## Lemmas on `setTimeoutThreshold` -/

/-- Every `tcsetattr` call of `setTimeoutThreshold` is made on the descriptor of
`thiz`, with `TCSANOW`, after a `tcgetattr` that did not return a negative
value, and on the retrieved attributes with `VMIN` and `VTIME` overwritten. -/
theorem setTimeoutThreshold_tcsetattr_event {σ : Type} (os : OS σ) (env : JNIEnv)
    (thiz : SerialPortObject) (vtime threshold : Int) (buf : String) (s : σ)
    (fd : Int) (act : Nat) (cfg : termios) (r : Int)
    (h : Event.tcsetattr fd act cfg r ∈
      (Java_io_bali_serialport_api_SerialPort_setTimeoutThreshold os env thiz vtime threshold
        buf s).2.1) :
    fd = get_file_descriptor thiz ∧ act = TCSANOW ∧
    (Java_io_bali_serialport_api_SerialPort_setTimeoutThreshold os env thiz vtime threshold
        buf s).2.1.head? =
      some (Event.tcgetattr fd (os.tcgetattr fd s).1 (os.tcgetattr fd s).2.1) ∧
    0 ≤ (os.tcgetattr fd s).1 ∧
    r = (os.tcsetattr fd TCSANOW cfg (os.tcgetattr fd s).2.2).1 ∧
    cfg = { (os.tcgetattr fd s).2.1 with
            c_cc := Function.update
              (Function.update (os.tcgetattr fd s).2.1.c_cc VMIN (to_cc_t threshold))
              VTIME (to_cc_t (Int.tdiv (normalisedTimeout vtime) 100)) } := by
  unfold Java_io_bali_serialport_api_SerialPort_setTimeoutThreshold throw_java_exception at h ⊢
  unfold normalisedTimeout
  simp only [] at h ⊢
  split_ifs at h ⊢ <;> simp at h <;> obtain ⟨rfl, rfl, rfl, rfl⟩ := h <;>
    simp_all

/-- The run of `setTimeoutThreshold` when `tcgetattr` did not return a negative
value: its OS calls are that `tcgetattr` and one `tcsetattr` with `TCSANOW` on
the retrieved attributes with `VMIN` and `VTIME` overwritten, the world is
the one `tcsetattr` left, and no exception is pending when `tcsetattr` did not
return a negative value. -/
theorem setTimeoutThreshold_run {σ : Type} (os : OS σ) (env : JNIEnv)
    (thiz : SerialPortObject) (vtime threshold : Int) (buf : String) (s : σ)
    (r0 : Int) (cfg0 : termios) (s1 : σ)
    (hget : os.tcgetattr (get_file_descriptor thiz) s = (r0, cfg0, s1)) (hr0 : 0 ≤ r0)
    (cfg1 : termios)
    (hcfg : cfg1 = { cfg0 with
      c_cc := Function.update (Function.update cfg0.c_cc VMIN (to_cc_t threshold))
        VTIME (to_cc_t (Int.tdiv (normalisedTimeout vtime) 100)) }) :
    osCalls (Java_io_bali_serialport_api_SerialPort_setTimeoutThreshold os env thiz vtime
        threshold buf s).2.1 =
      [Event.tcgetattr (get_file_descriptor thiz) r0 cfg0,
       Event.tcsetattr (get_file_descriptor thiz) TCSANOW cfg1
         (os.tcsetattr (get_file_descriptor thiz) TCSANOW cfg1 s1).1] ∧
    (Java_io_bali_serialport_api_SerialPort_setTimeoutThreshold os env thiz vtime
        threshold buf s).2.2 = (os.tcsetattr (get_file_descriptor thiz) TCSANOW cfg1 s1).2 ∧
    (0 ≤ (os.tcsetattr (get_file_descriptor thiz) TCSANOW cfg1 s1).1 →
      (Java_io_bali_serialport_api_SerialPort_setTimeoutThreshold os env thiz vtime
        threshold buf s).1 = none) := by
  subst hcfg
  have hnot : ¬ r0 < 0 := by omega
  unfold Java_io_bali_serialport_api_SerialPort_setTimeoutThreshold throw_java_exception
  unfold normalisedTimeout
  simp only [hget, hnot, if_false]
  split_ifs <;> simp_all [osCalls, Event.isOSCall]

/-- An exception left pending by `throw_java_exception` has the requested class
and carries the content of the unwritten buffer as its message. -/
theorem throw_java_exception_message (env : JNIEnv) (exception msg buf : String)
    (e : JavaException) (h : (throw_java_exception env exception msg buf).1 = some e) :
    e.cls = exception ∧ e.msg = buf := by
  unfold throw_java_exception at h
  split_ifs at h
  simp only [Prod.fst, Option.some.injEq] at h
  subst h
  exact ⟨rfl, rfl⟩

/-- Scenario facts: the opened device has descriptor 3 open. -/
theorem simOpened_fds : simOpened.open_fds = [3] := by
  decide

/-! ## The native method `open` -/

/-- Claim C1: for every supported bitrate, `getBitrate` returns the speed
constant of the same name, that constant is not the sentinel `(speed_t)-1`
(the constant `B0` of bitrate 0 is 0), and `open` does not take the
"Invalid bitrate" branch: it logs no such error and its first OS call is the
`open` of the path. -/
theorem open_supported_bitrate_selects_constant {σ : Type} (os : OS σ) (path : String)
    (s : σ) (p : Int × Nat) (hp : p ∈ supportedSpeeds) :
    p.1 ∈ supportedBitrates ∧
    getBitrate p.1 = p.2 ∧ p.2 ≠ to_speed_t (-1) ∧ (p.1 = 0 → p.2 = 0) ∧
    Event.log .error "Invalid bitrate" [] ∉
      (Java_io_bali_serialport_api_SerialPort_open os path p.1 s).2.1 ∧
    ∃ ret, (osCalls (Java_io_bali_serialport_api_SerialPort_open os path p.1 s).2.1).head? =
      some (Event.sys_open path (O_RDWR ||| O_NONBLOCK) ret) := by
  obtain ⟨h1, h2, h3⟩ := getBitrate_table p hp
  have hmem : p.1 ∈ supportedBitrates := by
    rw [← supportedSpeeds_fst]
    exact List.mem_map_of_mem Prod.fst hp
  refine ⟨hmem, h1, h2, h3, ?_, ?_⟩
  · unfold Java_io_bali_serialport_api_SerialPort_open
    rw [← h1] at h2
    simp only [h2, if_false]
    split_ifs <;> simp
  · unfold Java_io_bali_serialport_api_SerialPort_open
    rw [← h1] at h2
    simp only [h2, if_false]
    split_ifs <;> simp [osCalls, Event.isOSCall]

/-- Claim C1 at bitrate 9600 on the simulated device. -/
theorem open_supported_bitrate_selects_constant_witness :
    ((9600 : Int), B9600) ∈ supportedSpeeds ∧
    getBitrate 9600 = B9600 ∧ B9600 ≠ to_speed_t (-1) ∧
    Event.log .error "Invalid bitrate" [] ∉ traceOpenOk ∧
    ∃ ret, (osCalls traceOpenOk).head? =
      some (Event.sys_open simPath (O_RDWR ||| O_NONBLOCK) ret) :=
  have h := open_supported_bitrate_selects_constant (simOS noFaults) simPath simInit
    (9600, B9600) (by decide)
  ⟨by decide, h.2.1, h.2.2.1, h.2.2.2.2.1, h.2.2.2.2.2⟩

/-- Claim C2: for every integer bitrate outside the 31 supported values, `open`
returns `NULL` without any OS call: its trace holds no `open`, `tcgetattr`,
`tcsetattr` or `close`, and the world is left as it was. -/
theorem open_unsupported_bitrate_no_os_call {σ : Type} (os : OS σ) (path : String) (b : Int)
    (s : σ) (h : b ∉ supportedBitrates) :
    (Java_io_bali_serialport_api_SerialPort_open os path b s).1 = none ∧
    osCalls (Java_io_bali_serialport_api_SerialPort_open os path b s).2.1 = [] ∧
    (Java_io_bali_serialport_api_SerialPort_open os path b s).2.2 = s := by
  unfold Java_io_bali_serialport_api_SerialPort_open
  simp [getBitrate_invalid_of_not_mem b h, osCalls, Event.isOSCall]

/-- Claim C2 on the simulated device at bitrates 9601 and -7 (the values 1 and
4000001 are unsupported as well). -/
theorem open_unsupported_bitrate_no_os_call_witness :
    (9601 : Int) ∉ supportedBitrates ∧ (1 : Int) ∉ supportedBitrates ∧
    (4000001 : Int) ∉ supportedBitrates ∧
    ((Java_io_bali_serialport_api_SerialPort_open (simOS noFaults) simPath 9601 simInit).1
      = none ∧
    osCalls (Java_io_bali_serialport_api_SerialPort_open (simOS noFaults) simPath 9601
      simInit).2.1 = [] ∧
    (Java_io_bali_serialport_api_SerialPort_open (simOS noFaults) simPath 9601 simInit).2.2
      = simInit) ∧
    ((Java_io_bali_serialport_api_SerialPort_open (simOS noFaults) simPath (-7) simInit).1
      = none ∧
    osCalls (Java_io_bali_serialport_api_SerialPort_open (simOS noFaults) simPath (-7)
      simInit).2.1 = [] ∧
    (Java_io_bali_serialport_api_SerialPort_open (simOS noFaults) simPath (-7) simInit).2.2
      = simInit) :=
  ⟨by decide, by decide, by decide,
   open_unsupported_bitrate_no_os_call (simOS noFaults) simPath 9601 simInit (by decide),
   open_unsupported_bitrate_no_os_call (simOS noFaults) simPath (-7) simInit
     (not_mem_supportedBitrates_of_neg (-7) (by decide))⟩

/-- Claim C3: for a supported bitrate, when the OS `open` returned a descriptor
`fd` (leaving world `s1`), `tcgetattr fd` returned `r2` (leaving `s2`) and
`tcsetattr` on the configured attributes returns `r3` (leaving `s3`):
(a) if `r2` is non-zero, the method returns `NULL`, its OS calls are `open`,
`tcgetattr`, `close fd`, and the world is the one `close fd` leaves from `s2`;
(b) if `r2` is 0 and `r3` is non-zero, the method returns `NULL`, its OS calls
are `open`, `tcgetattr`, `tcsetattr`, `close fd`, and the world is the one
`close fd` leaves from `s3`;
(c) whenever the method returns a handle, the handle holds `fd`, both `r2` and
`r3` are 0, no `close` is in the trace and the world is `s3`. -/
theorem open_configure_failure_closes {σ : Type} (os : OS σ) (path : String) (b : Int)
    (s : σ) (hb : b ∈ supportedBitrates)
    (fd : Int) (s1 : σ) (hopen : os.sys_open path (O_RDWR ||| O_NONBLOCK) s = (fd, s1))
    (hfd : 0 ≤ fd)
    (r2 : Int) (cfg0 : termios) (s2 : σ) (hget : os.tcgetattr fd s1 = (r2, cfg0, s2))
    (r3 : Int) (s3 : σ)
    (hset : os.tcsetattr fd TCSANOW
      (os.cfsetospeed (os.cfsetispeed (os.cfmakeraw cfg0) (getBitrate b)) (getBitrate b)) s2
      = (r3, s3)) :
    (r2 ≠ 0 →
      (Java_io_bali_serialport_api_SerialPort_open os path b s).1 = none ∧
      osCalls (Java_io_bali_serialport_api_SerialPort_open os path b s).2.1 =
        [Event.sys_open path (O_RDWR ||| O_NONBLOCK) fd, Event.tcgetattr fd r2 cfg0,
         Event.close fd (os.close fd s2).1] ∧
      (Java_io_bali_serialport_api_SerialPort_open os path b s).2.2 = (os.close fd s2).2) ∧
    (r2 = 0 → r3 ≠ 0 →
      (Java_io_bali_serialport_api_SerialPort_open os path b s).1 = none ∧
      osCalls (Java_io_bali_serialport_api_SerialPort_open os path b s).2.1 =
        [Event.sys_open path (O_RDWR ||| O_NONBLOCK) fd, Event.tcgetattr fd r2 cfg0,
         Event.tcsetattr fd TCSANOW
           (os.cfsetospeed (os.cfsetispeed (os.cfmakeraw cfg0) (getBitrate b)) (getBitrate b))
           r3,
         Event.close fd (os.close fd s3).1] ∧
      (Java_io_bali_serialport_api_SerialPort_open os path b s).2.2 = (os.close fd s3).2) ∧
    (∀ h, (Java_io_bali_serialport_api_SerialPort_open os path b s).1 = some h →
      h.descriptor = fd ∧ r2 = 0 ∧ r3 = 0 ∧
      (∀ fd1 rc, Event.close fd1 rc ∉
        (Java_io_bali_serialport_api_SerialPort_open os path b s).2.1) ∧
      (Java_io_bali_serialport_api_SerialPort_open os path b s).2.2 = s3) := by
  have hv := getBitrate_valid_of_mem b hb
  have hne : fd ≠ -1 := by omega
  unfold Java_io_bali_serialport_api_SerialPort_open
  simp only [hv, if_false, hopen, hne, hget]
  refine ⟨?_, ?_, ?_⟩
  · intro h2
    simp [h2, osCalls, Event.isOSCall]
  · intro h2 h3
    simp [h2, h3, hset, osCalls, Event.isOSCall]
  · intro h
    split_ifs <;> simp_all
    rintro rfl
    rfl

/-- Claim C3 on the simulated device. When `tcsetattr` fails, the OS calls are
`open`, `tcgetattr`, `tcsetattr`, `close 3`, no handle is returned and no
descriptor stays open; likewise when `tcgetattr` fails. -/
theorem open_configure_failure_closes_witness :
    (9600 : Int) ∈ supportedBitrates ∧
    (simOS setFails).sys_open simPath (O_RDWR ||| O_NONBLOCK) simInit = (3, simAfterOpen) ∧
    ((Java_io_bali_serialport_api_SerialPort_open (simOS setFails) simPath 9600 simInit).1
        = none ∧
      osCalls (Java_io_bali_serialport_api_SerialPort_open (simOS setFails) simPath 9600
          simInit).2.1 =
        [Event.sys_open simPath (O_RDWR ||| O_NONBLOCK) 3, Event.tcgetattr 3 0 cookedTermios,
         Event.tcsetattr 3 TCSANOW simRawAttrs (-1), Event.close 3 0] ∧
      (Java_io_bali_serialport_api_SerialPort_open (simOS setFails) simPath 9600
          simInit).2.2 = ⟨[], cookedTermios, 5⟩) ∧
    ((Java_io_bali_serialport_api_SerialPort_open (simOS getFails) simPath 9600 simInit).1
        = none ∧
      osCalls (Java_io_bali_serialport_api_SerialPort_open (simOS getFails) simPath 9600
          simInit).2.1 =
        [Event.sys_open simPath (O_RDWR ||| O_NONBLOCK) 3, Event.tcgetattr 3 (-1) zeroTermios,
         Event.close 3 0] ∧
      (Java_io_bali_serialport_api_SerialPort_open (simOS getFails) simPath 9600
          simInit).2.2 = ⟨[], cookedTermios, 5⟩) :=
  have hs := open_configure_failure_closes (simOS setFails) simPath 9600 simInit (by decide)
    3 simAfterOpen rfl (by decide) 0 cookedTermios simAfterOpen rfl (-1) _ rfl
  have hg := open_configure_failure_closes (simOS getFails) simPath 9600 simInit (by decide)
    3 simAfterOpen rfl (by decide) (-1) zeroTermios _ rfl _ _ rfl
  ⟨by decide, rfl, hs.2.1 rfl (by decide), hg.1 (by decide)⟩

/-- Claim C4 fails on the code: on the simulated device the flag word of the
one OS `open` call is 2050 = `O_RDWR | O_NONBLOCK`, which does not contain
`O_NOCTTY`. -/
theorem open_flags_lack_noctty :
    (osCalls traceOpenOk).head? = some (Event.sys_open simPath 2050 3) ∧
    ¬ (containsFlag 2050 O_RDWR ∧ containsFlag 2050 O_NONBLOCK ∧
        containsFlag 2050 O_NOCTTY) := by
  decide

/-- Claim C4, amended: for every path and every supported bitrate, `open` makes
an OS `open` call as its first OS call, every OS `open` call it makes is on the
given path with the flag word `O_RDWR | O_NONBLOCK`, and that word contains
`O_RDWR` and `O_NONBLOCK` and does not contain `O_NOCTTY`. -/
theorem open_flags_rdwr_nonblock {σ : Type} (os : OS σ) (path : String) (b : Int) (s : σ)
    (hb : b ∈ supportedBitrates) :
    (∃ ret, (osCalls (Java_io_bali_serialport_api_SerialPort_open os path b s).2.1).head? =
      some (Event.sys_open path (O_RDWR ||| O_NONBLOCK) ret)) ∧
    (∀ p flags ret, Event.sys_open p flags ret ∈
        (Java_io_bali_serialport_api_SerialPort_open os path b s).2.1 →
      p = path ∧ flags = O_RDWR ||| O_NONBLOCK) ∧
    containsFlag (O_RDWR ||| O_NONBLOCK) O_RDWR ∧
    containsFlag (O_RDWR ||| O_NONBLOCK) O_NONBLOCK ∧
    ¬ containsFlag (O_RDWR ||| O_NONBLOCK) O_NOCTTY := by
  have hv := getBitrate_valid_of_mem b hb
  refine ⟨?_, ?_, by decide, by decide, by decide⟩
  · unfold Java_io_bali_serialport_api_SerialPort_open
    simp only [hv, if_false]
    split_ifs <;> simp [osCalls, Event.isOSCall]
  · unfold Java_io_bali_serialport_api_SerialPort_open
    simp only [hv, if_false]
    split_ifs <;> simp <;> intro p flags ret h1 h2 _ <;> exact ⟨h1, h2⟩

/-- Claim C4, amended, at bitrate 115200 on the simulated device. -/
theorem open_flags_rdwr_nonblock_witness :
    (115200 : Int) ∈ supportedBitrates ∧
    (∃ ret, (osCalls (Java_io_bali_serialport_api_SerialPort_open (simOS noFaults) simPath
        115200 simInit).2.1).head? =
      some (Event.sys_open simPath (O_RDWR ||| O_NONBLOCK) ret)) ∧
    ¬ containsFlag (O_RDWR ||| O_NONBLOCK) O_NOCTTY :=
  have h := open_flags_rdwr_nonblock (simOS noFaults) simPath 115200 simInit (by decide)
  ⟨by decide, h.1, h.2.2.2.2⟩

/-- Claim C5: for a supported bitrate `b`, when the OS `open` returned a
descriptor `fd`, `tcgetattr fd` returned 0 with attributes `cfg0`, and
`tcsetattr` on the configured attributes returns 0, the native `open` makes
exactly the OS calls `open`, `tcgetattr fd`, `tcsetattr fd TCSANOW cfg1` with
`cfg1` being `cfmakeraw cfg0` with `cfsetispeed` and then `cfsetospeed` applied
at `getBitrate b`; it returns a handle whose descriptor is `fd`, and the world
is the one `tcsetattr` left. -/
theorem open_applies_raw_attributes {σ : Type} (os : OS σ) (path : String) (b : Int) (s : σ)
    (hb : b ∈ supportedBitrates)
    (fd : Int) (s1 : σ) (hopen : os.sys_open path (O_RDWR ||| O_NONBLOCK) s = (fd, s1))
    (hfd : 0 ≤ fd)
    (cfg0 : termios) (s2 : σ) (hget : os.tcgetattr fd s1 = (0, cfg0, s2))
    (s3 : σ)
    (hset : os.tcsetattr fd TCSANOW
      (os.cfsetospeed (os.cfsetispeed (os.cfmakeraw cfg0) (getBitrate b)) (getBitrate b)) s2
      = (0, s3)) :
    (Java_io_bali_serialport_api_SerialPort_open os path b s).1 = some ⟨fd⟩ ∧
    osCalls (Java_io_bali_serialport_api_SerialPort_open os path b s).2.1 =
      [Event.sys_open path (O_RDWR ||| O_NONBLOCK) fd, Event.tcgetattr fd 0 cfg0,
       Event.tcsetattr fd TCSANOW
         (os.cfsetospeed (os.cfsetispeed (os.cfmakeraw cfg0) (getBitrate b)) (getBitrate b))
         0] ∧
    (Java_io_bali_serialport_api_SerialPort_open os path b s).2.2 = s3 := by
  have hv := getBitrate_valid_of_mem b hb
  have hne : fd ≠ -1 := by omega
  unfold Java_io_bali_serialport_api_SerialPort_open
  simp [hv, hopen, hne, hget, hset, osCalls, Event.isOSCall]

/-- Claim C5 at 9600 baud on the simulated device: the handle holds descriptor
3, the applied attributes are the raw form of the cooked attributes at speed
`B9600` (echo and canonical mode off, speed bits equal to `B9600`), and they
are the attributes of the line afterwards. -/
theorem open_applies_raw_attributes_witness :
    (9600 : Int) ∈ supportedBitrates ∧
    (simOS noFaults).sys_open simPath (O_RDWR ||| O_NONBLOCK) simInit = (3, simAfterOpen) ∧
    (simOS noFaults).tcgetattr 3 simAfterOpen = (0, cookedTermios, simAfterOpen) ∧
    (Java_io_bali_serialport_api_SerialPort_open (simOS noFaults) simPath 9600 simInit).1
      = some ⟨3⟩ ∧
    osCalls (Java_io_bali_serialport_api_SerialPort_open (simOS noFaults) simPath 9600
        simInit).2.1 =
      [Event.sys_open simPath (O_RDWR ||| O_NONBLOCK) 3, Event.tcgetattr 3 0 cookedTermios,
       Event.tcsetattr 3 TCSANOW simRawAttrs 0] ∧
    (Java_io_bali_serialport_api_SerialPort_open (simOS noFaults) simPath 9600 simInit).2.2
      = ⟨[3], simRawAttrs, 0⟩ ∧
    simRawAttrs.c_cflag &&& 4111 = B9600 ∧
    simRawAttrs.c_lflag &&& (8 ||| 2) = 0 :=
  have h := open_applies_raw_attributes (simOS noFaults) simPath 9600 simInit (by decide)
    3 simAfterOpen rfl (by decide) cookedTermios simAfterOpen rfl _ rfl
  ⟨by decide, rfl, rfl, h.1, h.2.1, h.2.2, by decide, by decide⟩

/-- Claim C9: whenever the OS `open` made by the native `open` returned a
negative value, the method returns `NULL` and that OS `open` is its only OS
call: no `tcgetattr`, `tcsetattr` or `close` follows. -/
theorem open_failure_no_further_call {σ : Type} (os : OS σ) (path : String) (b : Int)
    (s : σ) (flags : Nat) (fd : Int) (hneg : fd < 0)
    (hopen : Event.sys_open path flags fd ∈
      (Java_io_bali_serialport_api_SerialPort_open os path b s).2.1) :
    (Java_io_bali_serialport_api_SerialPort_open os path b s).1 = none ∧
    osCalls (Java_io_bali_serialport_api_SerialPort_open os path b s).2.1 =
      [Event.sys_open path flags fd] ∧
    (Java_io_bali_serialport_api_SerialPort_open os path b s).2.2 =
      (os.sys_open path flags s).2 := by
  have hret := os.sys_open_ret path (O_RDWR ||| O_NONBLOCK) s
  unfold Java_io_bali_serialport_api_SerialPort_open at hopen ⊢
  simp only [] at hopen ⊢
  split_ifs at hopen ⊢ <;> simp_all [osCalls, Event.isOSCall] <;> omega

/-- Claim C9 on the simulated device when `open` fails: no handle, one OS call,
no descriptor open afterwards. -/
theorem open_failure_no_further_call_witness :
    Event.sys_open simPath 2050 (-1) ∈
      (Java_io_bali_serialport_api_SerialPort_open (simOS openFails) simPath 9600
        simInit).2.1 ∧
    (Java_io_bali_serialport_api_SerialPort_open (simOS openFails) simPath 9600 simInit).1
      = none ∧
    osCalls (Java_io_bali_serialport_api_SerialPort_open (simOS openFails) simPath 9600
      simInit).2.1 = [Event.sys_open simPath 2050 (-1)] ∧
    (Java_io_bali_serialport_api_SerialPort_open (simOS openFails) simPath 9600
      simInit).2.2.open_fds = [] :=
  have h := open_failure_no_further_call (simOS openFails) simPath 9600 simInit 2050 (-1)
    (by decide) (by decide)
  ⟨by decide, h.1, h.2.1, by decide⟩

/-! ## The native method `setTimeoutThreshold` -/

/-- Claim C6 (code defect): with `vtime = 0` every `tcsetattr` call of
`setTimeoutThreshold` writes `VTIME = 0`, not a positive value: the timeout 1
chosen for `vtime = 0` is divided by 100 before it is stored, so the value is
the one written for a negative `vtime`. -/
theorem setTimeoutThreshold_vtime_zero_writes_zero {σ : Type} (os : OS σ) (env : JNIEnv)
    (thiz : SerialPortObject) (threshold : Int) (buf : String) (s : σ)
    (fd : Int) (act : Nat) (cfg : termios) (r : Int)
    (h : Event.tcsetattr fd act cfg r ∈
      (Java_io_bali_serialport_api_SerialPort_setTimeoutThreshold os env thiz 0 threshold
        buf s).2.1) :
    cfg.c_cc VTIME = 0 := by
  obtain ⟨-, -, -, -, -, hc⟩ :=
    setTimeoutThreshold_tcsetattr_event os env thiz 0 threshold buf s fd act cfg r h
  rw [hc]
  simp only [Function.update_same]
  decide

/-- Claim C6 on the opened simulated device: `vtime = 0` and `vtime = -1` both
store `VTIME = 0`, with `tcgetattr` and `tcsetattr` succeeding. -/
theorem setTimeoutThreshold_vtime_zero_writes_zero_witness :
    Event.tcsetattr 3 TCSANOW (attrsTimeout 0 1) 0 ∈ traceTimeout 0 1 ∧
    (attrsTimeout 0 1).c_cc VTIME = 0 ∧
    Event.tcsetattr 3 TCSANOW (attrsTimeout (-1) 1) 0 ∈ traceTimeout (-1) 1 ∧
    (attrsTimeout (-1) 1).c_cc VTIME = 0 :=
  ⟨by decide,
   setTimeoutThreshold_vtime_zero_writes_zero (simOS noFaults) simEnv simThiz 1 "" simOpened
     3 TCSANOW (attrsTimeout 0 1) 0 (by decide),
   by decide, by decide⟩

/-- Claim C7: when `tcgetattr` on the descriptor of `thiz` did not fail (its
return value `r0` is not negative), `setTimeoutThreshold` makes exactly two OS
calls, that `tcgetattr` and one `tcsetattr` on the same descriptor with
`TCSANOW`; the world is the one `tcsetattr` left and, when `tcsetattr` did not
fail either, no exception is pending. The attributes `cfg1` it applies hold
`VTIME = 0` for every negative `vtime` and the truncating quotient
`vtime / 100` for `0 < vtime < 25600`. -/
theorem setTimeoutThreshold_vtime_value {σ : Type} (os : OS σ) (env : JNIEnv)
    (thiz : SerialPortObject) (vtime threshold : Int) (buf : String) (s : σ)
    (r0 : Int) (cfg0 : termios) (s1 : σ)
    (hget : os.tcgetattr (get_file_descriptor thiz) s = (r0, cfg0, s1)) (hr0 : 0 ≤ r0) :
    ∃ cfg1,
      osCalls (Java_io_bali_serialport_api_SerialPort_setTimeoutThreshold os env thiz vtime
          threshold buf s).2.1 =
        [Event.tcgetattr (get_file_descriptor thiz) r0 cfg0,
         Event.tcsetattr (get_file_descriptor thiz) TCSANOW cfg1
           (os.tcsetattr (get_file_descriptor thiz) TCSANOW cfg1 s1).1] ∧
      (Java_io_bali_serialport_api_SerialPort_setTimeoutThreshold os env thiz vtime
          threshold buf s).2.2 = (os.tcsetattr (get_file_descriptor thiz) TCSANOW cfg1 s1).2 ∧
      (0 ≤ (os.tcsetattr (get_file_descriptor thiz) TCSANOW cfg1 s1).1 →
        (Java_io_bali_serialport_api_SerialPort_setTimeoutThreshold os env thiz vtime
          threshold buf s).1 = none) ∧
      (vtime < 0 → cfg1.c_cc VTIME = 0) ∧
      (0 < vtime → vtime < 25600 → (cfg1.c_cc VTIME : Int) = Int.tdiv vtime 100 ∧
        (cfg1.c_cc VTIME : Int) = vtime / 100) := by
  obtain ⟨h1, h2, h3⟩ :=
    setTimeoutThreshold_run os env thiz vtime threshold buf s r0 cfg0 s1 hget hr0 _ rfl
  refine ⟨_, h1, h2, h3, ?_, ?_⟩
  · intro hv
    simp only [Function.update_same, normalisedTimeout, hv, if_true]
    decide
  · intro hpos hlt
    have hn : normalisedTimeout vtime = vtime := by
      unfold normalisedTimeout
      rw [if_neg (by omega), if_neg (by omega)]
    have ht : Int.tdiv vtime 100 = vtime / 100 := Int.tdiv_eq_ediv (by omega) (by norm_num)
    simp only [Function.update_same, hn, to_cc_t_cast, ht]
    omega

/-- Claim C7 on the opened simulated device: `vtime = 250` applies `VTIME = 2`,
`vtime = 100` applies 1, `vtime = -1` applies 0, each by one `tcsetattr` with
`TCSANOW` that returns 0, and the line holds the applied attributes after. -/
theorem setTimeoutThreshold_vtime_value_witness :
    (simOS noFaults).tcgetattr (get_file_descriptor simThiz) simOpened
      = (0, simRawAttrs, simOpened) ∧
    (∃ cfg1, osCalls (traceTimeout 250 1) =
        [Event.tcgetattr 3 0 simRawAttrs, Event.tcsetattr 3 TCSANOW cfg1 0] ∧
      (Java_io_bali_serialport_api_SerialPort_setTimeoutThreshold (simOS noFaults) simEnv
        simThiz 250 1 "" simOpened).2.2.attrs = cfg1 ∧
      (Java_io_bali_serialport_api_SerialPort_setTimeoutThreshold (simOS noFaults) simEnv
        simThiz 250 1 "" simOpened).1 = none ∧
      cfg1.c_cc VTIME = 2) ∧
    (∃ cfg1, osCalls (traceTimeout 100 1) =
        [Event.tcgetattr 3 0 simRawAttrs, Event.tcsetattr 3 TCSANOW cfg1 0] ∧
      cfg1.c_cc VTIME = 1) ∧
    (∃ cfg1, osCalls (traceTimeout (-1) 1) =
        [Event.tcgetattr 3 0 simRawAttrs, Event.tcsetattr 3 TCSANOW cfg1 0] ∧
      cfg1.c_cc VTIME = 0) := by
  obtain ⟨c250, a1, a2, a3, -, a5⟩ := setTimeoutThreshold_vtime_value (simOS noFaults) simEnv
    simThiz 250 1 "" simOpened 0 simRawAttrs simOpened rfl le_rfl
  obtain ⟨c100, b1, -, -, -, b5⟩ := setTimeoutThreshold_vtime_value (simOS noFaults) simEnv
    simThiz 100 1 "" simOpened 0 simRawAttrs simOpened rfl le_rfl
  obtain ⟨cneg, c1, -, -, c4, -⟩ := setTimeoutThreshold_vtime_value (simOS noFaults) simEnv
    simThiz (-1) 1 "" simOpened 0 simRawAttrs simOpened rfl le_rfl
  have r250 : (0 : Int) =
      ((simOS noFaults).tcsetattr (get_file_descriptor simThiz) TCSANOW c250 simOpened).1 :=
    rfl
  have v250 : ((c250.c_cc VTIME : Nat) : Int) = 2 := (a5 (by decide) (by decide)).1
  have v100 : ((c100.c_cc VTIME : Nat) : Int) = 1 := (b5 (by decide) (by decide)).1
  refine ⟨rfl, ⟨c250, a1, ?_, a3 (le_of_eq r250), by exact_mod_cast v250⟩,
    ⟨c100, b1, by exact_mod_cast v100⟩, ⟨cneg, c1, c4 (by decide)⟩⟩
  rw [a2]
  rfl

/-- Claim C8 (code defect): when `tcgetattr` or `tcsetattr` returned a negative
value and the exception class is found, `setTimeoutThreshold` leaves an
`IOException` pending, but its message is the content of the buffer that
`throw_java_exception` never writes, not `strerror(errno)`: any pending
exception carries `buf`. When `tcgetattr` returned a negative value,
`tcsetattr` is not called. -/
theorem setTimeoutThreshold_exception_carries_buffer {σ : Type} (os : OS σ) (env : JNIEnv)
    (thiz : SerialPortObject) (vtime threshold : Int) (buf : String) (s : σ) :
    (∀ e, (Java_io_bali_serialport_api_SerialPort_setTimeoutThreshold os env thiz vtime
        threshold buf s).1 = some e → e.cls = IO_EXCEPTION ∧ e.msg = buf) ∧
    (((∃ fd r cfg0, r < 0 ∧ Event.tcgetattr fd r cfg0 ∈
          (Java_io_bali_serialport_api_SerialPort_setTimeoutThreshold os env thiz vtime
            threshold buf s).2.1) ∨
      (∃ fd act cfg r, r < 0 ∧ Event.tcsetattr fd act cfg r ∈
          (Java_io_bali_serialport_api_SerialPort_setTimeoutThreshold os env thiz vtime
            threshold buf s).2.1)) →
      env.FindClass IO_EXCEPTION = true →
      (Java_io_bali_serialport_api_SerialPort_setTimeoutThreshold os env thiz vtime
        threshold buf s).1 = some ⟨IO_EXCEPTION, buf⟩) ∧
    (∀ fd r cfg0, r < 0 → Event.tcgetattr fd r cfg0 ∈
        (Java_io_bali_serialport_api_SerialPort_setTimeoutThreshold os env thiz vtime
          threshold buf s).2.1 →
      ∀ fd1 act cfg r1, Event.tcsetattr fd1 act cfg r1 ∉
        (Java_io_bali_serialport_api_SerialPort_setTimeoutThreshold os env thiz vtime
          threshold buf s).2.1) := by
  refine ⟨?_, ?_, ?_⟩
  · intro e he
    unfold Java_io_bali_serialport_api_SerialPort_setTimeoutThreshold at he
    simp only [] at he
    split_ifs at he <;> exact throw_java_exception_message _ _ _ _ e he
  · intro hfail hcls
    unfold Java_io_bali_serialport_api_SerialPort_setTimeoutThreshold throw_java_exception
      at hfail ⊢
    simp only [] at hfail ⊢
    split_ifs at hfail ⊢ <;> simp_all <;> omega
  · intro fd r cfg0 hr hget
    unfold Java_io_bali_serialport_api_SerialPort_setTimeoutThreshold throw_java_exception
      at hget ⊢
    simp only [] at hget ⊢
    split_ifs at hget ⊢ <;> simp_all <;> omega

/-- Claim C8 on the simulated device, on a descriptor that is not open:
`tcgetattr` fails with `EBADF`, the text "Bad file descriptor" reaches only the
log, and the pending `IOException` carries the buffer content (here empty). -/
theorem setTimeoutThreshold_exception_carries_buffer_witness :
    (Java_io_bali_serialport_api_SerialPort_setTimeoutThreshold (simOS noFaults) simEnv simThiz
      100 1 "" simInit).1 = some ⟨"java/io/IOException", ""⟩ ∧
    (Java_io_bali_serialport_api_SerialPort_setTimeoutThreshold (simOS noFaults) simEnv simThiz
      100 1 "" simInit).2.1 =
      [Event.tcgetattr 3 (-1) zeroTermios,
       Event.log .debug "%s in %s" [.str "Bad file descriptor"]] ∧
    (simOS noFaults).strerror ((simOS noFaults).errno
      (Java_io_bali_serialport_api_SerialPort_setTimeoutThreshold (simOS noFaults) simEnv
        simThiz 100 1 "" simInit).2.2) = "Bad file descriptor" ∧
    ("" : String) ≠ "Bad file descriptor" :=
  have h := (setTimeoutThreshold_exception_carries_buffer (simOS noFaults) simEnv simThiz
    100 1 "" simInit).2.1
    (Or.inl ⟨3, -1, zeroTermios, by decide, by decide⟩) (by decide)
  ⟨h, by decide, by decide, by decide⟩

/-- Claim C10: when `tcgetattr` on the descriptor of `thiz` did not fail,
`setTimeoutThreshold` makes exactly two OS calls, that `tcgetattr` (returning
attributes `cfg0`) and one `tcsetattr` with attributes `cfg1`, and leaves the
world `tcsetattr` left. `cfg1` is `cfg0` with only the `VMIN` and `VTIME`
control characters changed: every flag word, the line discipline and every
other control character are equal; `VMIN` is `threshold mod 256` and `VTIME` is
`(timeout / 100) mod 256` for the normalised timeout. Hence a threshold in
0..255 is stored unchanged, threshold 256 stores `VMIN = 0` and `vtime = 25600`
stores `VTIME = 0`. -/
theorem setTimeoutThreshold_frame {σ : Type} (os : OS σ) (env : JNIEnv)
    (thiz : SerialPortObject) (vtime threshold : Int) (buf : String) (s : σ)
    (r0 : Int) (cfg0 : termios) (s1 : σ)
    (hget : os.tcgetattr (get_file_descriptor thiz) s = (r0, cfg0, s1)) (hr0 : 0 ≤ r0) :
    ∃ cfg1,
      osCalls (Java_io_bali_serialport_api_SerialPort_setTimeoutThreshold os env thiz vtime
          threshold buf s).2.1 =
        [Event.tcgetattr (get_file_descriptor thiz) r0 cfg0,
         Event.tcsetattr (get_file_descriptor thiz) TCSANOW cfg1
           (os.tcsetattr (get_file_descriptor thiz) TCSANOW cfg1 s1).1] ∧
      (Java_io_bali_serialport_api_SerialPort_setTimeoutThreshold os env thiz vtime
          threshold buf s).2.2 = (os.tcsetattr (get_file_descriptor thiz) TCSANOW cfg1 s1).2 ∧
      cfg1.c_iflag = cfg0.c_iflag ∧ cfg1.c_oflag = cfg0.c_oflag ∧
      cfg1.c_cflag = cfg0.c_cflag ∧ cfg1.c_lflag = cfg0.c_lflag ∧ cfg1.c_line = cfg0.c_line ∧
      (∀ i, i ≠ VMIN → i ≠ VTIME → cfg1.c_cc i = cfg0.c_cc i) ∧
      (cfg1.c_cc VMIN : Int) = threshold % 256 ∧
      (cfg1.c_cc VTIME : Int) = Int.tdiv (normalisedTimeout vtime) 100 % 256 ∧
      (0 ≤ threshold → threshold ≤ 255 → (cfg1.c_cc VMIN : Int) = threshold) ∧
      (threshold = 256 → cfg1.c_cc VMIN = 0) ∧
      (vtime = 25600 → cfg1.c_cc VTIME = 0) := by
  obtain ⟨h1, h2, -⟩ :=
    setTimeoutThreshold_run os env thiz vtime threshold buf s r0 cfg0 s1 hget hr0 _ rfl
  have hne : VMIN ≠ VTIME := by decide
  refine ⟨_, h1, h2, rfl, rfl, rfl, rfl, rfl, ?_, ?_, ?_, ?_, ?_, ?_⟩
  · intro i hi1 hi2
    simp only [Function.update_noteq hi2, Function.update_noteq hi1]
  · simp only [Function.update_noteq hne, Function.update_same, to_cc_t_cast]
  · simp only [Function.update_same, to_cc_t_cast]
  · intro h0 h255
    simp only [Function.update_noteq hne, Function.update_same, to_cc_t_cast]
    omega
  · intro h0
    subst h0
    simp only [Function.update_noteq hne, Function.update_same]
    decide
  · intro h0
    subst h0
    simp only [Function.update_same]
    decide

/-- Claim C10 on the opened simulated device with `vtime = 25600` and
`threshold = 256`: one `tcsetattr` is made, both control characters are stored
as 0, and the flag words are those retrieved. -/
theorem setTimeoutThreshold_frame_witness :
    (simOS noFaults).tcgetattr (get_file_descriptor simThiz) simOpened
      = (0, simRawAttrs, simOpened) ∧
    ∃ cfg1, osCalls (traceTimeout 25600 256) =
        [Event.tcgetattr 3 0 simRawAttrs, Event.tcsetattr 3 TCSANOW cfg1 0] ∧
      cfg1.c_cc VMIN = 0 ∧ cfg1.c_cc VTIME = 0 ∧
      cfg1.c_iflag = simRawAttrs.c_iflag ∧ cfg1.c_oflag = simRawAttrs.c_oflag ∧
      cfg1.c_cflag = simRawAttrs.c_cflag ∧ cfg1.c_lflag = simRawAttrs.c_lflag := by
  obtain ⟨cfg1, h1, -, h3, h4, h5, h6, -, -, -, -, -, h12, h13⟩ :=
    setTimeoutThreshold_frame (simOS noFaults) simEnv simThiz 25600 256 "" simOpened
      0 simRawAttrs simOpened rfl le_rfl
  exact ⟨rfl, cfg1, h1, h12 rfl, h13 rfl, h3, h4, h5, h6⟩

end SerialPort
